import Mathlib

/-!
Verification of the ROV thruster command pipeline.

The definitions below are a shallow embedding of the Python sources
`controller/software/config.py`, `controller/software/maestro.py` and
`controller/software/rov_control.py`.  Python floats are modelled as
rationals (ℚ), Python ints as ℤ or ℕ.  Python's `int(x)` conversion
truncates toward zero; it is modelled by `pyInt` below.
-/

/-- Truncation toward zero, the semantics of Python's `int(x)` on a real
number: floor for nonnegative arguments, ceiling (written as `-⌊-q⌋`) for
negative ones. -/
def pyInt (q : ℚ) : ℤ := if 0 ≤ q then ⌊q⌋ else -⌊-q⌋

/- ---------------- config.py ---------------- -/

/-- ESC PWM settings, the `PWM_SETTINGS` dict of `config.py` (values in
microseconds, frequency in Hz). -/
structure PwmSettings where
  frequency : ℤ
  neutral : ℤ
  min_pulse : ℤ
  max_pulse : ℤ
  deadband : ℤ

/-- `config.py` lines 79-85: `PWM_SETTINGS`. -/
def PWM_SETTINGS : PwmSettings :=
  { frequency := 50, neutral := 1500, min_pulse := 1000, max_pulse := 2000, deadband := 50 }

/-- Safety settings, the numeric fields of the `SAFETY` dict of `config.py`. -/
structure Safety where
  max_power : ℚ
  power_limit : ℚ
  startup_delay : ℚ

/-- `config.py` lines 88-94: `SAFETY` (max_power 1.0, power_limit 0.10,
startup_delay 2.0). -/
def SAFETY : Safety := { max_power := 1, power_limit := 1/10, startup_delay := 2 }

/-- Per-thruster configuration, one entry of the `THRUSTERS` dict of
`config.py`. -/
structure ThrusterSpec where
  direction_multiplier : ℚ
  max_power : ℚ

/-- `config.py`: `THRUSTERS['horizontal_1']` (direction 1). -/
def THRUSTERS_horizontal_1 : ThrusterSpec :=
  { direction_multiplier := 1, max_power := SAFETY.max_power }

/-- `config.py`: `THRUSTERS['horizontal_2']` (direction -1, counter-rotating prop). -/
def THRUSTERS_horizontal_2 : ThrusterSpec :=
  { direction_multiplier := -1, max_power := SAFETY.max_power }

/-- `config.py`: `THRUSTERS['vertical']` (direction 1). -/
def THRUSTERS_vertical : ThrusterSpec :=
  { direction_multiplier := 1, max_power := SAFETY.max_power }

/-- `config.py` lines 31-35: `THRUSTER_CHANNELS` — horizontal_1 on Maestro
channel 0, horizontal_2 on channel 1, vertical on channel 2. -/
def THRUSTER_CHANNELS : ℕ × ℕ × ℕ := (0, 1, 2)

/- ---------------- maestro.py ---------------- -/

/-- `maestro.py` lines 151-161: `microseconds_to_target(microseconds)` =
`int(microseconds * 4)`; on the integer pulse widths used by the pipeline
this is exact multiplication by 4 (quarter-microsecond units). -/
def microseconds_to_target (microseconds : ℤ) : ℤ := microseconds * 4

/-- `maestro.py` lines 164-174: `target_to_microseconds(target)` =
`target / 4.0` (true division, modelled exactly in ℚ). -/
def target_to_microseconds (target : ℤ) : ℚ := (target : ℚ) / 4

/-- `maestro.py` lines 64-71, the body of `Controller.setTarget`: the 4-byte
Pololu Protocol frame `[0x84, channel, target & 0x7F, (target >> 7) & 0x7F]`
written to the serial port.  On nonnegative targets Python's `& 0x7F` is
`% 128` and `>> 7` is `/ 128`, which is what this model computes; the
pipeline only ever produces nonnegative targets, so every use in this file
is exact (for a negative target Python's two's-complement masking would
differ from the `toNat` here).  There is no range assertion in the
source. -/
def setTargetFrame (channel : ℕ) (target : ℤ) : List ℕ :=
  [0x84, channel, target.toNat % 128, target.toNat / 128 % 128]

/-- Modelled from the spec: `decode_quarter_us`, the device-side decoding of
a 14-bit value from the two 7-bit payload bytes of a frame, "low bits first"
(spec section 6, serial command protocol); the inverse of the split performed
in `setTarget`.  This decoder is Maestro firmware behaviour and has no
implementation under `src/`. -/
def decode_quarter_us (low high : ℕ) : ℕ := low + high * 128

/- ---------------- rov_control.py ---------------- -/

/-- `rov_control.py` lines 107-123, the power-to-microseconds mapping inside
`set_thruster_pwm` (the Power Mapper): clamp the power to [-1, 1], scale by
the global power limit, then map zero to neutral, positive values into
[neutral, max_pulse] and negative values into [min_pulse, neutral], with
Python's `int()` truncation.  The pulse bounds are the `PWM_SETTINGS`
configuration, passed here as a parameter; the global limit is
`SAFETY['power_limit']`. -/
def map_power (st : PwmSettings) (power_limit : ℚ) (power : ℚ) : ℤ :=
  let power1 : ℚ := max (-1) (min 1 power)
  let power2 : ℚ := power1 * power_limit
  if power2 = 0 then st.neutral
  else if 0 < power2 then pyInt ((st.neutral : ℚ) + power2 * ((st.max_pulse : ℚ) - (st.neutral : ℚ)))
  else pyInt ((st.neutral : ℚ) + power2 * ((st.neutral : ℚ) - (st.min_pulse : ℚ)))

/-- `rov_control.py` lines 95-127: `ROVController.set_thruster_pwm`.  The
safety check (lines 103-105) replaces the requested power by 0.0 when the
controller is emergency-stopped or not armed; the rest of the body is
`map_power` followed by the conversion to a Maestro target (line 126).  The
returned value is the target transmitted to the transport by
`self.maestro.setTarget(channel, target)` on line 127. -/
def set_thruster_pwm (st : PwmSettings) (power_limit : ℚ)
    (emergency_stop armed : Bool) (power : ℚ) : ℤ :=
  let power0 : ℚ := if emergency_stop || !armed then 0 else power
  microseconds_to_target (map_power st power_limit power0)

/-- `rov_control.py` lines 146-174, the per-axis branch of
`update_thrusters` repeated verbatim for h1, h2 and v: forward button gives
1.0, otherwise back button gives -1.0, otherwise 0.0 (before the direction
multiplier is applied). -/
def axis_power (forward back : Bool) : ℚ :=
  if forward then 1 else if back then -1 else 0

/-- One button snapshot, the dict returned by `ROVController.read_buttons`
(`config.py` `BUTTON_PINS` keys). -/
structure Buttons where
  h1_forward : Bool
  h1_back : Bool
  h2_forward : Bool
  h2_back : Bool
  v_up : Bool
  v_down : Bool

/-- `rov_control.py` lines 146-171: the three desired powers computed by
`update_thrusters` from a button snapshot, before the per-thruster direction
multipliers are applied (h1, h2, v in order). -/
def update_desired (b : Buttons) : ℚ × ℚ × ℚ :=
  (axis_power b.h1_forward b.h1_back,
   axis_power b.h2_forward b.h2_back,
   axis_power b.v_up b.v_down)

/- ---------------- control loop and error handling (rov_control.py main) ---------------- -/

/-- Observable controller state for the control-loop model: the two safety
flags of `ROVController.__init__` (lines 57-59) together with the sequence of
`(channel, target)` frames that actually reached the serial transport and a
running count of write attempts.  The write counter indexes a fault oracle
deciding which physical writes raise a `serial` exception. -/
structure MainState where
  emergency_stop : Bool
  armed : Bool
  log : List (ℕ × ℤ)
  writes : ℕ

/-- One `self.maestro.setTarget(channel, target)` call, i.e. one
`self.serial.write(command)`: the fault oracle `ok` decides whether this
write attempt succeeds (the frame is appended to the transport log) or
raises (`Except.error`, carrying the state after the failed attempt). -/
def attemptWrite (ok : ℕ → Bool) (s : MainState) (channel : ℕ) (target : ℤ) :
    Except MainState MainState :=
  if ok s.writes then
    .ok { s with log := s.log ++ [(channel, target)], writes := s.writes + 1 }
  else
    .error { s with writes := s.writes + 1 }

/-- `set_thruster_pwm` as executed against the transport model: compute the
target from the current safety flags (lines 103-126) and attempt the write
of line 127. -/
def set_thruster_pwm_sim (st : PwmSettings) (power_limit : ℚ) (ok : ℕ → Bool)
    (s : MainState) (channel : ℕ) (power : ℚ) : Except MainState MainState :=
  attemptWrite ok s channel (set_thruster_pwm st power_limit s.emergency_stop s.armed power)

/-- `rov_control.py` lines 142-184: `update_thrusters` — compute the three
axis powers from the button snapshot, apply the configured direction
multipliers, and send the three PWM commands in channel order 0, 1, 2
(h1, h2, v).  A raising write aborts the remainder of the tick, exactly as
an uncaught Python exception would. -/
def update_thrusters_sim (st : PwmSettings) (power_limit : ℚ) (ok : ℕ → Bool)
    (s : MainState) (b : Buttons) : Except MainState MainState := do
  let s1 ← set_thruster_pwm_sim st power_limit ok s 0
    (axis_power b.h1_forward b.h1_back * THRUSTERS_horizontal_1.direction_multiplier)
  let s2 ← set_thruster_pwm_sim st power_limit ok s1 1
    (axis_power b.h2_forward b.h2_back * THRUSTERS_horizontal_2.direction_multiplier)
  set_thruster_pwm_sim st power_limit ok s2 2
    (axis_power b.v_up b.v_down * THRUSTERS_vertical.direction_multiplier)

/-- `rov_control.py` lines 186-197: `emergency_stop_all` — set the
`emergency_stop` flag, then send the neutral target to every thruster
channel (0, 1, 2) in order.  Each of these writes goes to the same transport
and can itself raise.  In the source this is reached through `cleanup()`
only from `signal_handler` (line 222), which checks `'rov' in globals()`
— a check that succeeds, since `rov` is a module-level global; the
exception handler of `main` never reaches it (see `main_loop`). -/
def emergency_stop_all_sim (st : PwmSettings) (ok : ℕ → Bool) (s : MainState) :
    Except MainState MainState := do
  let s0 : MainState := { s with emergency_stop := true }
  let n : ℤ := microseconds_to_target st.neutral
  let s1 ← attemptWrite ok s0 0 n
  let s2 ← attemptWrite ok s1 1 n
  attemptWrite ok s2 2 n

/-- `rov_control.py` lines 264-294, the `while True` loop of `main` and its
`except Exception` handler, run on a finite schedule of button snapshots
(one per tick).  A normal tick recurses on the rest of the schedule.  If a
tick raises, control reaches the handler at line 290, which prints the error
and evaluates `if 'rov' in locals():` (line 292) — always False inside
`main`, because `rov` is declared `global rov` at line 229 and a
global-declared name never appears in the function's `locals()` — so
`rov.cleanup()` is skipped: no neutral write is sent, `emergency_stop` is
left unchanged, and the bare `raise` at line 294 ends the process.  The
returned Bool is true when the process exited by re-raising an exception,
false when the schedule was exhausted with the loop still running. -/
def main_loop (st : PwmSettings) (power_limit : ℚ) (ok : ℕ → Bool) :
    List Buttons → MainState → MainState × Bool
  | [], s => (s, false)
  | b :: rest, s =>
    match update_thrusters_sim st power_limit ok s b with
    | .ok s1 => main_loop st power_limit ok rest s1
    | .error s1 => (s1, true)

/-- Initial state of the loop as entered from `main`: `arm_escs` has set
`armed` (line 90), no emergency, with the arming-phase neutral writes not
tracked (the log starts at the first loop tick). -/
def initState : MainState := { emergency_stop := false, armed := true, log := [], writes := 0 }

/- ---------------- definitions taken from the claims' wording ---------------- -/

/-- The Power Mapper exactly as claim C4 states it (spec section 4.3):
`effective = clamp(power, -1, 1) × spec.max_power × limit`, with the zero,
forward and reverse branches in exact (rational) arithmetic.  This is the
claim-side definition, to be compared against `map_power`, the one embedded
from the source. -/
def mapPower_claim (st : PwmSettings) (power max_power limit : ℚ) : ℚ :=
  let effective : ℚ := max (-1) (min 1 power) * max_power * limit
  if effective = 0 then st.neutral
  else if 0 < effective then (st.neutral : ℚ) + effective * ((st.max_pulse : ℚ) - (st.neutral : ℚ))
  else (st.neutral : ℚ) + effective * ((st.neutral : ℚ) - (st.min_pulse : ℚ))

/-- The Power Mapper as amended for claim C4: the source composes only the
global power limit (`effective = clamp(power, -1, 1) × limit`); the
per-channel `max_power` configured in `THRUSTERS` is never read by
`set_thruster_pwm`. -/
def mapPower_amended (st : PwmSettings) (power limit : ℚ) : ℚ :=
  let effective : ℚ := max (-1) (min 1 power) * limit
  if effective = 0 then st.neutral
  else if 0 < effective then (st.neutral : ℚ) + effective * ((st.max_pulse : ℚ) - (st.neutral : ℚ))
  else (st.neutral : ℚ) + effective * ((st.neutral : ℚ) - (st.min_pulse : ℚ))

/-- Fault oracle for the claim C2 scenario: exactly the third physical write
(index 2, the channel-2 command of the first tick) raises; every other write
succeeds. -/
def okC2 : ℕ → Bool := fun n => n != 2

/-- Button snapshot with no button pressed. -/
def allOff : Buttons :=
  { h1_forward := false, h1_back := false, h2_forward := false,
    h2_back := false, v_up := false, v_down := false }

/- ---------------- helper lemmas ---------------- -/

lemma neg_floor_neg (q : ℚ) : -⌊-q⌋ = ⌈q⌉ := by
  rw [Int.floor_neg, neg_neg]

lemma pyInt_intCast (n : ℤ) : pyInt (n : ℚ) = n := by
  unfold pyInt
  split
  · exact Int.floor_intCast n
  · rw [neg_floor_neg, Int.ceil_intCast]

lemma floor_le_pyInt (q : ℚ) : ⌊q⌋ ≤ pyInt q := by
  unfold pyInt
  split
  · exact le_refl _
  · rw [neg_floor_neg]
    exact Int.floor_le_ceil q

lemma pyInt_le_ceil (q : ℚ) : pyInt q ≤ ⌈q⌉ := by
  unfold pyInt
  split
  · exact Int.floor_le_ceil q
  · rw [neg_floor_neg]

lemma le_pyInt {n : ℤ} {q : ℚ} (h : (n : ℚ) ≤ q) : n ≤ pyInt q :=
  le_trans (Int.le_floor.mpr h) (floor_le_pyInt q)

lemma pyInt_le {n : ℤ} {q : ℚ} (h : q ≤ (n : ℚ)) : pyInt q ≤ n :=
  le_trans (pyInt_le_ceil q) (Int.ceil_le.mpr h)

lemma pyInt_mono {q r : ℚ} (h : q ≤ r) : pyInt q ≤ pyInt r := by
  unfold pyInt
  split <;> split
  · exact Int.floor_mono h
  · linarith [le_trans (by assumption : (0:ℚ) ≤ q) h]
  · rename_i hq hr
    rw [neg_floor_neg]
    have h1 : ⌈q⌉ ≤ 0 := Int.ceil_le.mpr (by exact_mod_cast le_of_not_le hq)
    have h2 : (0:ℤ) ≤ ⌊r⌋ := Int.floor_nonneg.mpr hr
    linarith
  · have := Int.floor_mono (neg_le_neg h)
    omega

lemma map_power_zero (st : PwmSettings) (limit : ℚ) : map_power st limit 0 = st.neutral := by
  have h1 : min (1:ℚ) 0 = 0 := min_eq_right (by norm_num)
  have h2 : max (-1:ℚ) 0 = 0 := max_eq_right (by norm_num)
  simp [map_power, h1, h2]

lemma map_power_eq_amended (st : PwmSettings) (limit power : ℚ) :
    map_power st limit power = pyInt (mapPower_amended st power limit) := by
  simp only [map_power, mapPower_amended]
  split_ifs with h1 h2
  · exact (pyInt_intCast st.neutral).symm
  · rfl
  · rfl

lemma branch_mono (st : PwmSettings)
    (hmn : (st.min_pulse : ℚ) < (st.neutral : ℚ)) (hnm : (st.neutral : ℚ) < (st.max_pulse : ℚ))
    {e1 e2 : ℚ} (h : e1 ≤ e2) :
    (if e1 = 0 then (st.neutral : ℚ)
      else if 0 < e1 then (st.neutral : ℚ) + e1 * ((st.max_pulse : ℚ) - (st.neutral : ℚ))
      else (st.neutral : ℚ) + e1 * ((st.neutral : ℚ) - (st.min_pulse : ℚ))) ≤
    (if e2 = 0 then (st.neutral : ℚ)
      else if 0 < e2 then (st.neutral : ℚ) + e2 * ((st.max_pulse : ℚ) - (st.neutral : ℚ))
      else (st.neutral : ℚ) + e2 * ((st.neutral : ℚ) - (st.min_pulse : ℚ))) := by
  rcases lt_trichotomy e1 0 with h1 | h1 | h1 <;> rcases lt_trichotomy e2 0 with h2 | h2 | h2
  · rw [if_neg h1.ne, if_neg (not_lt.mpr h1.le), if_neg h2.ne, if_neg (not_lt.mpr h2.le)]
    nlinarith
  · rw [if_neg h1.ne, if_neg (not_lt.mpr h1.le), if_pos h2]
    nlinarith
  · rw [if_neg h1.ne, if_neg (not_lt.mpr h1.le), if_neg h2.ne', if_pos h2]
    nlinarith
  · exact absurd (h1 ▸ h) (not_le.mpr h2)
  · rw [if_pos h1, if_pos h2]
  · rw [if_pos h1, if_neg h2.ne', if_pos h2]
    nlinarith
  · exact absurd (le_trans h h2.le) (not_le.mpr h1)
  · exact absurd (h2 ▸ h) (not_le.mpr h1)
  · rw [if_neg h1.ne', if_pos h1, if_neg h2.ne', if_pos h2]
    nlinarith

/- ---------------- claim theorems ---------------- -/

/-- C1: for every pulse configuration, power limit and requested power, if
the controller is not armed or is emergency-stopped when `set_thruster_pwm`
is called, the target transmitted to the transport is exactly the neutral
target; equivalently, only the armed, non-emergency state can send a
non-neutral command. -/
theorem c1_safety_gate_forces_neutral (st : PwmSettings) (limit power : ℚ)
    (emergency_stop armed : Bool) (h : armed = false ∨ emergency_stop = true) :
    set_thruster_pwm st limit emergency_stop armed power =
      microseconds_to_target st.neutral := by
  have hcond : (emergency_stop || !armed) = true := by
    rcases h with h | h <;> simp [h]
  simp only [set_thruster_pwm, hcond, if_pos, Bool.true_eq_false]
  simp [map_power_zero]

/-- Witness for C1: a disarmed controller asked for full forward power still
transmits the neutral target. -/
theorem c1_witness :
    set_thruster_pwm PWM_SETTINGS (1/10) false false 1 =
      microseconds_to_target PWM_SETTINGS.neutral :=
  c1_safety_gate_forces_neutral PWM_SETTINGS (1/10) 1 false false (Or.inl rfl)

/-- C4 counterexample: with `spec.max_power = 1/2`, requested power 1 and the
configured limit 0.10, the claimed algorithm yields 1525 µs but the code
(which never reads `max_power`) yields 1550 µs. -/
theorem c4_counterexample :
    ¬ map_power PWM_SETTINGS SAFETY.power_limit 1 =
        pyInt (mapPower_claim PWM_SETTINGS 1 (1/2) SAFETY.power_limit) := by
  have h1 : map_power PWM_SETTINGS SAFETY.power_limit 1 = 1550 := by
    norm_num [map_power, pyInt, PWM_SETTINGS, SAFETY]
  have h2 : mapPower_claim PWM_SETTINGS 1 (1/2) SAFETY.power_limit = 1525 := by
    norm_num [mapPower_claim, PWM_SETTINGS, SAFETY]
  rw [h1, h2]
  norm_num [pyInt]

/-- C4 (amended): the power mapper computes
`effective = clamp(power, -1, 1) × limit` — the per-channel `max_power` is
not applied — and then maps effective 0 to neutral, positive effective to
`neutral + effective × (max_pulse − neutral)` and negative effective to
`neutral + effective × (neutral − min_pulse)`, truncated toward zero. -/
theorem c4_algorithm_amended (st : PwmSettings) (limit power : ℚ) :
    map_power st limit power = pyInt (mapPower_amended st power limit) :=
  map_power_eq_amended st limit power

/-- C5: for every configuration with `min_pulse < neutral < max_pulse`,
every limit in [0, 1] and every power in [-1, 1], the mapped pulse width
lies within `[min_pulse, max_pulse]`, and power 0 maps exactly to neutral. -/
theorem c5_output_in_bounds (st : PwmSettings) (limit power : ℚ)
    (hmn : st.min_pulse < st.neutral) (hnm : st.neutral < st.max_pulse)
    (hl0 : 0 ≤ limit) (hl1 : limit ≤ 1) (hp0 : -1 ≤ power) (hp1 : power ≤ 1) :
    (st.min_pulse ≤ map_power st limit power ∧ map_power st limit power ≤ st.max_pulse) ∧
      map_power st limit 0 = st.neutral := by
  refine ⟨?_, map_power_zero st limit⟩
  simp only [map_power]
  set c : ℚ := max (-1) (min 1 power) with hc
  have hc1 : (-1 : ℚ) ≤ c := le_max_left _ _
  have hc2 : c ≤ 1 := max_le (by norm_num) (min_le_left _ _)
  set e : ℚ := c * limit with he
  have he1 : (-1 : ℚ) ≤ e := by nlinarith
  have he2 : e ≤ 1 := by nlinarith
  have hmnq : (st.min_pulse : ℚ) < (st.neutral : ℚ) := by exact_mod_cast hmn
  have hnmq : (st.neutral : ℚ) < (st.max_pulse : ℚ) := by exact_mod_cast hnm
  split_ifs with h0 hpos
  · exact ⟨hmn.le, hnm.le⟩
  · constructor
    · exact le_pyInt (by nlinarith)
    · exact pyInt_le (by nlinarith)
  · have hneg : e < 0 := lt_of_le_of_ne (not_lt.mp hpos) h0
    constructor
    · exact le_pyInt (by nlinarith)
    · exact pyInt_le (by nlinarith)

/-- Witness for C5 at the configured settings, limit 0.10 and power 1/2. -/
theorem c5_witness :
    (PWM_SETTINGS.min_pulse ≤ map_power PWM_SETTINGS (1/10) (1/2) ∧
        map_power PWM_SETTINGS (1/10) (1/2) ≤ PWM_SETTINGS.max_pulse) ∧
      map_power PWM_SETTINGS (1/10) 0 = PWM_SETTINGS.neutral :=
  c5_output_in_bounds PWM_SETTINGS (1/10) (1/2) (by decide) (by decide)
    (by norm_num) (by norm_num) (by norm_num) (by norm_num)

/-- C6: the power mapper is monotonic in the power argument — for a fixed
valid configuration and a limit in [0, 1], a smaller requested power never
produces a larger pulse width (integer truncation included). -/
theorem c6_monotone (st : PwmSettings) (limit p1 p2 : ℚ)
    (hmn : st.min_pulse < st.neutral) (hnm : st.neutral < st.max_pulse)
    (hl0 : 0 ≤ limit) (hl1 : limit ≤ 1)
    (hp0 : -1 ≤ p1) (h12 : p1 < p2) (hp1 : p2 ≤ 1) :
    map_power st limit p1 ≤ map_power st limit p2 := by
  rw [map_power_eq_amended, map_power_eq_amended]
  apply pyInt_mono
  simp only [mapPower_amended]
  have hmnq : (st.min_pulse : ℚ) < (st.neutral : ℚ) := by exact_mod_cast hmn
  have hnmq : (st.neutral : ℚ) < (st.max_pulse : ℚ) := by exact_mod_cast hnm
  have hcc : max (-1 : ℚ) (min 1 p1) ≤ max (-1) (min 1 p2) :=
    max_le_max (le_refl _) (min_le_min (le_refl _) h12.le)
  exact branch_mono st hmnq hnmq (mul_le_mul_of_nonneg_right hcc hl0)

/-- Witness for C6: power 0 versus power 1 at the configured settings. -/
theorem c6_witness : map_power PWM_SETTINGS (1/10) 0 ≤ map_power PWM_SETTINGS (1/10) 1 :=
  c6_monotone PWM_SETTINGS (1/10) 0 1 (by decide) (by decide)
    (by norm_num) (by norm_num) (by norm_num) (by norm_num) (by norm_num)

/-- C9: with the configured power limit 0.10, pulse bounds 1000/1500/2000 µs
and per-channel max_power 1.0, a requested power of 1.0 in the armed state
maps to exactly 1550 µs, transmitted as the corresponding target. -/
theorem c9_ten_percent_full_forward :
    map_power PWM_SETTINGS SAFETY.power_limit 1 = 1550 ∧
      set_thruster_pwm PWM_SETTINGS SAFETY.power_limit false true 1 =
        microseconds_to_target 1550 := by
  constructor <;>
    norm_num [map_power, set_thruster_pwm, pyInt, PWM_SETTINGS, SAFETY, microseconds_to_target]

/-- C2 counterexample: in the claimed scenario — the channel-2 write of a
tick raises a transport error while every other write would succeed — no
channel receives a neutral command on that tick (channel 2 receives nothing
at all and the log holds only the two pre-failure writes), the state never
becomes emergency-stopped, and the loop does not keep running: with two
ticks scheduled the run ends during the first one with the exited flag set,
because the handler's `'rov' in locals()` guard is always False (skipping
`cleanup()`) and `main` re-raises. -/
theorem c2_counterexample :
    main_loop PWM_SETTINGS (1/10) okC2 [allOff, allOff] initState =
      ({ emergency_stop := false, armed := true,
         log := [(0, 6000), (1, 6000)], writes := 3 }, true) := by
  simp only [main_loop, update_thrusters_sim, set_thruster_pwm_sim, attemptWrite,
    initState, okC2, allOff, axis_power, bind, Except.bind,
    THRUSTERS_horizontal_1, THRUSTERS_horizontal_2, THRUSTERS_vertical]
  norm_num [set_thruster_pwm, map_power, pyInt, PWM_SETTINGS, microseconds_to_target]

/-- C2 (amended): if a transport write raises mid-tick on channel 2, the
tick is aborted — channels later in the dispatch order get no command, no
neutral is sent, and `emergency_stop` stays false, because the handler's
`'rov' in locals()` check never succeeds and `rov.cleanup()` is skipped —
and the process exits by re-raising instead of continuing to loop. -/
theorem c2_exit_without_cleanup (b : Buttons) :
    (main_loop PWM_SETTINGS (1/10) okC2 [b] initState).2 = true ∧
    (main_loop PWM_SETTINGS (1/10) okC2 [b] initState).1.emergency_stop = false ∧
    ∃ t0 t1, (main_loop PWM_SETTINGS (1/10) okC2 [b] initState).1.log = [(0, t0), (1, t1)] := by
  have key : main_loop PWM_SETTINGS (1/10) okC2 [b] initState =
      ({ emergency_stop := false, armed := true,
         log := [(0, set_thruster_pwm PWM_SETTINGS (1/10) false true
                      (axis_power b.h1_forward b.h1_back *
                        THRUSTERS_horizontal_1.direction_multiplier)),
                 (1, set_thruster_pwm PWM_SETTINGS (1/10) false true
                      (axis_power b.h2_forward b.h2_back *
                        THRUSTERS_horizontal_2.direction_multiplier))], writes := 3 }, true) := by
    simp only [main_loop, update_thrusters_sim, set_thruster_pwm_sim, attemptWrite,
      initState, okC2, bind, Except.bind]
    norm_num
  exact ⟨by rw [key], by rw [key],
    set_thruster_pwm PWM_SETTINGS (1/10) false true
      (axis_power b.h1_forward b.h1_back * THRUSTERS_horizontal_1.direction_multiplier),
    set_thruster_pwm PWM_SETTINGS (1/10) false true
      (axis_power b.h2_forward b.h2_back * THRUSTERS_horizontal_2.direction_multiplier),
    by rw [key]⟩

/-- C3: the serial encoder has no range assertion — at target 16384 (pulse
width 4096 µs, one past the 14-bit range) `setTarget` silently emits the
frame `[0x84, channel, 0x00, 0x00]`, whose two payload bytes decode to 0,
a different target than requested. -/
theorem c3_silent_truncation :
    setTargetFrame 2 16384 = [0x84, 2, 0, 0] ∧ decode_quarter_us 0 0 = 0 := by
  constructor <;> decide

/-- C7: on the configured domain (1000 µs to 2000 µs), framing the
quarter-microsecond target into the two 7-bit payload bytes and decoding
them back recovers the target exactly, and composing
`microseconds_to_target` with `target_to_microseconds` is the identity. -/
theorem c7_roundtrip (channel : ℕ) (microseconds : ℤ)
    (h1 : 1000 ≤ microseconds) (h2 : microseconds ≤ 2000) :
    setTargetFrame channel (microseconds_to_target microseconds) =
      [0x84, channel, (microseconds_to_target microseconds).toNat % 128,
        (microseconds_to_target microseconds).toNat / 128 % 128] ∧
    decode_quarter_us ((microseconds_to_target microseconds).toNat % 128)
        ((microseconds_to_target microseconds).toNat / 128 % 128) =
      (microseconds_to_target microseconds).toNat ∧
    target_to_microseconds (microseconds_to_target microseconds) = (microseconds : ℚ) := by
  refine ⟨rfl, ?_, ?_⟩
  · unfold microseconds_to_target decode_quarter_us
    omega
  · unfold microseconds_to_target target_to_microseconds
    push_cast
    ring

/-- Witness for C7 at channel 0 and pulse width 1500 µs. -/
theorem c7_witness :
    setTargetFrame 0 (microseconds_to_target 1500) =
      [0x84, 0, (microseconds_to_target 1500).toNat % 128,
        (microseconds_to_target 1500).toNat / 128 % 128] ∧
    decode_quarter_us ((microseconds_to_target 1500).toNat % 128)
        ((microseconds_to_target 1500).toNat / 128 % 128) =
      (microseconds_to_target 1500).toNat ∧
    target_to_microseconds (microseconds_to_target 1500) = ((1500 : ℤ) : ℚ) :=
  c7_roundtrip 0 1500 (by norm_num) (by norm_num)

/-- C8: for every channel byte, pulse width 1500 µs on the serial variant
gives target 6000 and the exact frame `[0x84, channel, 0x70, 0x2E]`. -/
theorem c8_neutral_frame (channel : ℕ) (h : channel < 256) :
    microseconds_to_target 1500 = 6000 ∧
      setTargetFrame channel (microseconds_to_target 1500) = [0x84, channel, 0x70, 0x2E] := by
  refine ⟨rfl, ?_⟩
  have hlo : ((1500 * 4 : ℤ)).toNat % 128 = 0x70 := by decide
  have hhi : ((1500 * 4 : ℤ)).toNat / 128 % 128 = 0x2E := by decide
  simp only [setTargetFrame, microseconds_to_target, hlo, hhi]

/-- Witness for C8 at channel 0. -/
theorem c8_witness :
    microseconds_to_target 1500 = 6000 ∧
      setTargetFrame 0 (microseconds_to_target 1500) = [0x84, 0, 0x70, 0x2E] :=
  c8_neutral_frame 0 (by norm_num)

/-- C10: in `update_thrusters`, the forward button of each axis takes
precedence — whenever it reads active the desired power before the direction
multiplier is +1.0, even if the back button is also active — and the back
button yields -1.0 only when the forward button is inactive. -/
theorem c10_forward_precedence (b : Buttons) :
    (b.h1_forward = true → (update_desired b).1 = 1) ∧
    (b.h1_forward = false → b.h1_back = true → (update_desired b).1 = -1) ∧
    (b.h2_forward = true → (update_desired b).2.1 = 1) ∧
    (b.h2_forward = false → b.h2_back = true → (update_desired b).2.1 = -1) ∧
    (b.v_up = true → (update_desired b).2.2 = 1) ∧
    (b.v_up = false → b.v_down = true → (update_desired b).2.2 = -1) := by
  refine ⟨fun h => ?_, fun h h2 => ?_, fun h => ?_, fun h h2 => ?_,
    fun h => ?_, fun h h2 => ?_⟩ <;>
    simp [update_desired, axis_power, *]

/-- Witness for C10: both buttons pressed on every axis gives +1 on h1, and
back-only gives -1. -/
theorem c10_witness :
    (update_desired ⟨true, true, true, true, true, true⟩).1 = 1 ∧
    (update_desired ⟨false, true, false, true, false, true⟩).1 = -1 :=
  ⟨(c10_forward_precedence ⟨true, true, true, true, true, true⟩).1 rfl,
   (c10_forward_precedence ⟨false, true, false, true, false, true⟩).2.1 rfl rfl⟩
